import Mathlib

/-!
Verification of the water-cycle simulation repository (three browser demo
variants).  The embedding below translates the simulation logic of
`src/old-script.js` (namespace `OldScript`) and of `src/unnamed/part_001`
(namespace `ClimateSim`) into Lean.  Times, positions and climate values
are modelled as rationals; the per-frame random samples (`Math.random()`)
are passed in explicitly as parameters; the `Math.sin`/`Math.cos` calls of
the terrain formula are abstracted as function parameters so that the
structural relationship between mesh generation and collision queries can
be compared independently of the trigonometric interpretation.
-/

namespace OldScript

/-- The four-state water cycle of `old-script.js` (`this.cycleState`). -/
inductive CyclePhase
  | EVAPORATION
  | CONDENSATION
  | PRECIPITATION
  | COLLECTION
deriving DecidableEq, Repr

open CyclePhase

/-- `this.cycleDurations` (seconds), lines 35-40 of `old-script.js`. -/
def cycleDuration : CyclePhase → ℚ
  | EVAPORATION => 15
  | CONDENSATION => 10
  | PRECIPITATION => 20
  | COLLECTION => 8

/-- The `switch` in `updateWaterCycle` (lines 384-389). -/
def nextCycleState : CyclePhase → CyclePhase
  | EVAPORATION => CONDENSATION
  | CONDENSATION => PRECIPITATION
  | PRECIPITATION => COLLECTION
  | COLLECTION => EVAPORATION

/-- The cycle clock: `this.cycleState` and `this.cycleTimer`. -/
structure CycleClock where
  cycleState : CyclePhase
  cycleTimer : ℚ
deriving DecidableEq, Repr

/-- `updateWaterCycle(delta)` (lines 377-391): add `delta` to the timer,
and if the timer exceeds the current phase duration, reset it to 0,
advance to the next phase and notify (`this.updateCycleStage()`, modelled
by the returned boolean). -/
def updateWaterCycle (s : CycleClock) (delta : ℚ) : CycleClock × Bool :=
  let timer := s.cycleTimer + delta
  if timer > cycleDuration s.cycleState then
    (⟨nextCycleState s.cycleState, 0⟩, true)
  else
    (⟨s.cycleState, timer⟩, false)

/-- The per-tick progress value `this.cycleTimer / currentDuration`
(line 393), read as a query on the clock state. -/
def progress (s : CycleClock) : ℚ :=
  s.cycleTimer / cycleDuration s.cycleState

/-- Running a sequence of ticks through `updateWaterCycle`. -/
def runCycle (s : CycleClock) : List ℚ → CycleClock
  | [] => s
  | d :: ds => runCycle (updateWaterCycle s d).1 ds

/-- Every phase duration is positive. -/
lemma cycleDuration_pos (p : CyclePhase) : 0 < cycleDuration p := by
  cases p <;> norm_num [cycleDuration]

/-- All entries of a tick sequence are nonnegative. -/
abbrev allNonneg (ds : List ℚ) : Prop := ∀ d ∈ ds, 0 ≤ d

/-- If the accumulated time never exceeds the current duration, the run
just accumulates the ticks into the timer without a transition. -/
lemma runCycle_no_transition :
    ∀ (ds : List ℚ) (s : CycleClock), allNonneg ds →
      s.cycleTimer + ds.sum ≤ cycleDuration s.cycleState →
      runCycle s ds = ⟨s.cycleState, s.cycleTimer + ds.sum⟩
  | [], s, _, _ => by simp [runCycle]
  | d :: ds, s, hnn, hle => by
    have hsum : 0 ≤ ds.sum :=
      List.sum_nonneg fun x hx => hnn x (List.mem_cons_of_mem d hx)
    have hcons : (d :: ds).sum = d + ds.sum := List.sum_cons
    have hnot : ¬ (s.cycleTimer + d > cycleDuration s.cycleState) := by
      rw [hcons] at hle
      push_neg
      linarith
    have hrec := runCycle_no_transition ds ⟨s.cycleState, s.cycleTimer + d⟩
      (fun x hx => hnn x (List.mem_cons_of_mem d hx))
      (by rw [hcons] at hle; simpa [add_assoc] using hle)
    simp only [runCycle, updateWaterCycle, if_neg hnot]
    rw [hrec, hcons]
    congr 1
    ring

/-- C1: `advance(deltaTime)` for `deltaTime ≥ 0` adds the delta to the
elapsed timer; if the result exceeds the current phase duration the timer
resets to 0, the phase advances in the fixed cyclic order
Evaporation → Condensation → Precipitation → Collection → Evaporation,
and a phase-change notification is emitted; otherwise the phase is kept,
the timer holds the sum, and no notification is emitted. -/
theorem updateWaterCycle_advance_spec (s : CycleClock) (delta : ℚ)
    (_hd : 0 ≤ delta) :
    (s.cycleTimer + delta > cycleDuration s.cycleState →
      (updateWaterCycle s delta).1.cycleState = nextCycleState s.cycleState ∧
      (updateWaterCycle s delta).1.cycleTimer = 0 ∧
      (updateWaterCycle s delta).2 = true) ∧
    (s.cycleTimer + delta ≤ cycleDuration s.cycleState →
      (updateWaterCycle s delta).1.cycleState = s.cycleState ∧
      (updateWaterCycle s delta).1.cycleTimer = s.cycleTimer + delta ∧
      (updateWaterCycle s delta).2 = false) ∧
    nextCycleState EVAPORATION = CONDENSATION ∧
    nextCycleState CONDENSATION = PRECIPITATION ∧
    nextCycleState PRECIPITATION = COLLECTION ∧
    nextCycleState COLLECTION = EVAPORATION := by
  refine ⟨fun h => ?_, fun h => ?_, rfl, rfl, rfl, rfl⟩
  · simp [updateWaterCycle, if_pos h]
  · have hnot : ¬ (s.cycleTimer + delta > cycleDuration s.cycleState) :=
      not_lt.mpr h
    simp [updateWaterCycle, if_neg hnot]

/-- Witness for `updateWaterCycle_advance_spec` at the concrete call
(Evaporation, elapsed 0), delta 16. -/
theorem updateWaterCycle_advance_spec_witness :
    (0 : ℚ) ≤ 16 ∧
    (updateWaterCycle ⟨EVAPORATION, 0⟩ 16).1.cycleState = CONDENSATION ∧
    (updateWaterCycle ⟨EVAPORATION, 0⟩ 16).2 = true := by
  have h := updateWaterCycle_advance_spec ⟨EVAPORATION, 0⟩ 16 (by norm_num)
  have hgt : (⟨EVAPORATION, 0⟩ : CycleClock).cycleTimer + 16 >
      cycleDuration (⟨EVAPORATION, 0⟩ : CycleClock).cycleState := by
    norm_num [cycleDuration]
  exact ⟨by norm_num, (h.1 hgt).1, (h.1 hgt).2.2⟩

/-- C2 counterexample: ticking 16 seconds from (Evaporation, 0) — a phase
of duration 15 — leaves the elapsed timer at 0, not at the residual 1:
line 383 of `old-script.js` is `this.cycleTimer = 0`, discarding the
residual. -/
theorem tick16_residual_cex :
    (updateWaterCycle ⟨EVAPORATION, 0⟩ 16).1.cycleTimer = 0 ∧
    (updateWaterCycle ⟨EVAPORATION, 0⟩ 16).1.cycleTimer ≠ 1 := by
  norm_num [updateWaterCycle, cycleDuration]

/-- C2 (amended): ticking 16 seconds on (Evaporation, 0) — duration 15 —
advances to the next phase (Condensation), resets the elapsed timer to 0
(not the residual 1), and emits exactly one phase-change notification. -/
theorem tick16_advances_and_resets :
    updateWaterCycle ⟨EVAPORATION, 0⟩ 16 = (⟨CONDENSATION, 0⟩, true) := by
  norm_num [updateWaterCycle, cycleDuration, nextCycleState]

/-- C4 counterexample: an advance by exactly the phase duration
(delta 15 from (Evaporation, 0)) does not trigger a transition (the check
on line 382 is strict) and leaves `progress()` equal to 1, which is not in
the half-open interval [0, 1). -/
theorem progress_reaches_one_cex :
    progress (updateWaterCycle ⟨EVAPORATION, 0⟩ 15).1 = 1 ∧
    ¬ progress (updateWaterCycle ⟨EVAPORATION, 0⟩ 15).1 < 1 := by
  norm_num [updateWaterCycle, cycleDuration, progress]

/-- C4 (amended): after every advance with `deltaTime ≥ 0` from a state
with nonnegative elapsed time, `progress()` lies in the closed interval
[0, 1] (the value 1 is attained when the delta lands exactly on the
duration). -/
theorem progress_mem_unit_interval (s : CycleClock) (delta : ℚ)
    (h0 : 0 ≤ s.cycleTimer) (hd : 0 ≤ delta) :
    0 ≤ progress (updateWaterCycle s delta).1 ∧
      progress (updateWaterCycle s delta).1 ≤ 1 := by
  by_cases hc : s.cycleTimer + delta > cycleDuration s.cycleState
  · simp [updateWaterCycle, if_pos hc, progress]
  · have hdur := cycleDuration_pos s.cycleState
    have hle : s.cycleTimer + delta ≤ cycleDuration s.cycleState :=
      not_lt.mp hc
    constructor
    · simp only [updateWaterCycle, if_neg hc, progress]
      exact div_nonneg (add_nonneg h0 hd) hdur.le
    · simp only [updateWaterCycle, if_neg hc, progress]
      exact (div_le_one hdur).mpr hle

/-- Witness for `progress_mem_unit_interval` at (Condensation, 2),
delta 3. -/
theorem progress_mem_unit_interval_witness :
    (0 : ℚ) ≤ (⟨CONDENSATION, 2⟩ : CycleClock).cycleTimer ∧ (0 : ℚ) ≤ 3 ∧
    (0 ≤ progress (updateWaterCycle ⟨CONDENSATION, 2⟩ 3).1 ∧
      progress (updateWaterCycle ⟨CONDENSATION, 2⟩ 3).1 ≤ 1) := by
  refine ⟨by norm_num, by norm_num, ?_⟩
  exact progress_mem_unit_interval ⟨CONDENSATION, 2⟩ 3 (by norm_num) (by norm_num)

/-- The sum of any prefix of a nonnegative list is at most the full sum. -/
lemma sum_take_le_sum (ds : List ℚ) (hnn : allNonneg ds) (k : ℕ) :
    (ds.take k).sum ≤ ds.sum := by
  have hsplit : (ds.take k).sum + (ds.drop k).sum = ds.sum := by
    rw [← List.sum_append, List.take_append_drop]
  have hdrop : 0 ≤ (ds.drop k).sum :=
    List.sum_nonneg fun x hx => hnn x ((List.drop_sublist k ds).subset hx)
  linarith

/-- Prefix sums of a nonnegative list are monotone. -/
lemma sum_take_mono (ds : List ℚ) (hnn : allNonneg ds) {i j : ℕ}
    (hij : i ≤ j) : (ds.take i).sum ≤ (ds.take j).sum := by
  have hj : j = i + (j - i) := (Nat.add_sub_cancel' hij).symm
  have hsplit : ds.take j = ds.take i ++ (ds.drop i).take (j - i) := by
    rw [hj, List.take_add]
    simp [Nat.add_sub_cancel_left]
  have hrest : 0 ≤ ((ds.drop i).take (j - i)).sum := by
    refine List.sum_nonneg fun x hx => hnn x ?_
    exact (List.drop_sublist i ds).subset (((ds.drop i).take_sublist (j - i)).subset hx)
  rw [hsplit, List.sum_append]
  linarith

/-- C3 counterexample: a single nonnegative tick of 14 seconds — summing
to less than the 15-second Evaporation duration — changes the phase when
the clock starts at elapsed 14 (a state satisfying the documented
invariant `elapsed < duration`). -/
theorem subduration_sequence_phase_change_cex :
    allNonneg [(14 : ℚ)] ∧
    [(14 : ℚ)].sum < cycleDuration EVAPORATION ∧
    (⟨EVAPORATION, 14⟩ : CycleClock).cycleTimer < cycleDuration EVAPORATION ∧
    (runCycle ⟨EVAPORATION, 14⟩ [14]).cycleState ≠ EVAPORATION := by
  refine ⟨fun d hd => ?_, by norm_num [cycleDuration], by norm_num [cycleDuration], ?_⟩
  · simp only [List.mem_singleton] at hd
    norm_num [hd]
  · norm_num [runCycle, updateWaterCycle, cycleDuration, nextCycleState]
    decide

/-- C3 (amended): for a sequence of nonnegative ticks whose sum is below
the duration of the current phase, *starting at the beginning of the
phase* (elapsed 0), the phase never changes at any point of the sequence
and `progress()` is monotonically non-decreasing along the sequence. -/
theorem subduration_sequence_stable (p : CyclePhase) (ds : List ℚ)
    (i j : ℕ) (hnn : allNonneg ds) (hsum : ds.sum < cycleDuration p)
    (hij : i ≤ j) :
    (runCycle ⟨p, 0⟩ (ds.take i)).cycleState = p ∧
    progress (runCycle ⟨p, 0⟩ (ds.take i)) ≤
      progress (runCycle ⟨p, 0⟩ (ds.take j)) := by
  have hall : ∀ k, allNonneg (ds.take k) :=
    fun k x hx => hnn x ((ds.take_sublist k).subset hx)
  have hrun : ∀ k, runCycle ⟨p, 0⟩ (ds.take k) = ⟨p, (ds.take k).sum⟩ := by
    intro k
    have hk : (⟨p, 0⟩ : CycleClock).cycleTimer + (ds.take k).sum ≤
        cycleDuration (⟨p, 0⟩ : CycleClock).cycleState := by
      have := sum_take_le_sum ds hnn k
      simpa using le_of_lt (lt_of_le_of_lt this hsum)
    simpa using runCycle_no_transition (ds.take k) ⟨p, 0⟩ (hall k) hk
  refine ⟨by rw [hrun i], ?_⟩
  rw [hrun i, hrun j]
  simp only [progress]
  have hmono := sum_take_mono ds hnn hij
  have hdur := cycleDuration_pos p
  gcongr

/-- Witness for `subduration_sequence_stable` on the sequence [3, 4] in
the Evaporation phase, prefixes 1 and 2. -/
theorem subduration_sequence_stable_witness :
    allNonneg [(3 : ℚ), 4] ∧ [(3 : ℚ), 4].sum < cycleDuration EVAPORATION ∧
    1 ≤ 2 ∧
    ((runCycle ⟨EVAPORATION, 0⟩ ([(3 : ℚ), 4].take 1)).cycleState = EVAPORATION ∧
      progress (runCycle ⟨EVAPORATION, 0⟩ ([(3 : ℚ), 4].take 1)) ≤
        progress (runCycle ⟨EVAPORATION, 0⟩ ([(3 : ℚ), 4].take 2))) := by
  have h1 : allNonneg [(3 : ℚ), 4] := by
    intro d hd
    simp only [List.mem_cons, List.mem_singleton] at hd
    rcases hd with h | h | h <;> simp_all
  have h2 : [(3 : ℚ), 4].sum < cycleDuration EVAPORATION := by
    norm_num [cycleDuration]
  exact ⟨h1, h2, by norm_num,
    subduration_sequence_stable EVAPORATION [3, 4] 1 2 h1 h2 (by norm_num)⟩

/-- A 3-component vector of rationals (positions and velocities stored in
the `Float32Array`s of the particle systems). -/
structure Vec3 where
  x : ℚ
  y : ℚ
  z : ℚ
deriving DecidableEq, Repr

/-- `this.objects.clouds.children[Math.floor(Math.random() * length)]`
(lines 448/453): picking a cloud by a uniform random sample `r ∈ [0, 1)`;
`none` models the `undefined` obtained when the list is empty. -/
def pickCloud (clouds : List Vec3) (r : ℚ) : Option Vec3 :=
  clouds.get? (Int.toNat ⌊r * clouds.length⌋)

/-- The rain-recycle body (lines 448-451 / 453-456): reset the particle to
a randomly chosen cloud position with horizontal jitter.  When the cloud
list is empty the original code dereferences `undefined.position` and
throws, modelled by `none`. -/
def recycleRainParticle (clouds : List Vec3) (r jx jz : ℚ) : Option Vec3 :=
  match pickCloud clouds r with
  | some cloud => some ⟨cloud.x + jx, cloud.y, cloud.z + jz⟩
  | none => none

/-- One rain-particle step of `updatePrecipitation` (lines 437-457):
advect x by `windSpeed / 50`, fall by the stored y velocity, then recycle
when below the terrain raycast hit (`terrainHit`) or below the floor
sentinel -10.  `none` models the exception raised on an empty cloud
list. -/
def updateRainParticle (clouds : List Vec3) (windSpeed vy : ℚ)
    (terrainHit : Option ℚ) (p : Vec3) (r jx jz : ℚ) : Option Vec3 :=
  let px := p.x + windSpeed / 50
  let py := p.y + vy
  match terrainHit with
  | some ty =>
    if py < ty then recycleRainParticle clouds r jx jz
    else if py < -10 then recycleRainParticle clouds r jx jz
    else some ⟨px, py, p.z⟩
  | none =>
    if py < -10 then recycleRainParticle clouds r jx jz
    else some ⟨px, py, p.z⟩

/-- C5: with an empty cloud list, a precipitation particle falling past
the floor sentinel (y = -11, velocity -1/2) triggers the recycle path,
which indexes the empty cloud list and fails (`none` — the original code
throws a TypeError on `undefined.position`) instead of falling back to a
default spawn point. -/
theorem updateRainParticle_empty_clouds_none :
    updateRainParticle [] 10 (-(1 : ℚ) / 2) none ⟨0, -11, 0⟩ 0 0 0 = none := by
  norm_num [updateRainParticle, recycleRainParticle, pickCloud]

/-- The full mutable state touched by `resetSimulation` (lines 532-545)
together with the particle pools of the simulation. -/
structure SimState where
  temperature : ℚ
  windSpeed : ℚ
  cycleState : CyclePhase
  cycleTimer : ℚ
  evapPositions : List Vec3
  rainPositions : List Vec3
deriving DecidableEq, Repr

/-- `resetSimulation()` (lines 532-545): restore the default climate
parameters and reset the cycle clock to (Evaporation, 0).  The particle
position arrays are not touched anywhere in the function. -/
def resetSimulation (s : SimState) : SimState :=
  { s with temperature := 15, windSpeed := 10,
           cycleState := EVAPORATION, cycleTimer := 0 }

/-- The spawn distribution of an evaporation particle (lines 281-289):
x and z uniform in a 150-wide square, y fixed at 0.5. -/
def createEvaporationParticle (rx rz : ℚ) : Vec3 :=
  ⟨(rx - 1/2) * 150, 1/2, (rz - 1/2) * 150⟩

/-- Every freshly spawned evaporation particle has altitude 1/2. -/
lemma createEvaporationParticle_y (rx rz : ℚ) :
    (createEvaporationParticle rx rz).y = 1/2 := rfl

/-- C8 counterexample: resetting a state whose single evaporation
particle sits at altitude 29 leaves that particle exactly where it was;
since every position drawn from the spawn distribution has altitude 1/2,
the pool is not redrawn from its spawn distribution. -/
theorem reset_keeps_particles_cex :
    (resetSimulation ⟨20, 3, PRECIPITATION, 5, [⟨0, 29, 0⟩], []⟩).evapPositions
      = [⟨0, 29, 0⟩] ∧
    (createEvaporationParticle 0 0).y = 1/2 ∧ (29 : ℚ) ≠ 1/2 := by
  refine ⟨rfl, rfl, by norm_num⟩

/-- C8 (amended): `resetSimulation` reinitializes the cycle clock to
(Evaporation, 0) and the climate parameters to their defaults, but leaves
every particle pool at its pre-reset positions. -/
theorem resetSimulation_spec (s : SimState) :
    (resetSimulation s).cycleState = EVAPORATION ∧
    (resetSimulation s).cycleTimer = 0 ∧
    (resetSimulation s).temperature = 15 ∧
    (resetSimulation s).windSpeed = 10 ∧
    (resetSimulation s).evapPositions = s.evapPositions ∧
    (resetSimulation s).rainPositions = s.rainPositions := by
  refine ⟨rfl, rfl, rfl, rfl, rfl, rfl⟩

/-- One evaporation-particle step of `updateEvaporation` (lines 411-416):
only the y coordinate is advanced, scaled by the temperature factor, and
reset to 0.5 above the ceiling 30.  The whole velocity vector is passed
in, as allocated in `createEvaporationParticles`; the code reads only its
y component. -/
def updateEvaporationParticle (temperature : ℚ) (v : Vec3) (p : Vec3) : Vec3 :=
  let py := p.y + v.y * (1 + temperature / 15)
  if py > 30 then ⟨p.x, 1/2, p.z⟩ else ⟨p.x, py, p.z⟩

/-- `updateEvaporation(isActive, progress)` on the whole pool: when the
Evaporation phase is not active the function returns before touching any
position (line 406). -/
def updateEvaporationPool (isActive : Bool) (temperature : ℚ)
    (ps : List (Vec3 × Vec3)) : List Vec3 :=
  if isActive then ps.map (fun q => updateEvaporationParticle temperature q.2 q.1)
  else ps.map (fun q => q.1)

/-- C9: the evaporation update mutates only the y coordinate: the x and z
coordinates of every particle are unchanged by the call, for every
temperature and every stored velocity vector (the x and z velocities
allocated at pool creation are never applied). -/
theorem updateEvaporation_preserves_xz (isActive : Bool) (temperature : ℚ)
    (ps : List (Vec3 × Vec3)) :
    (updateEvaporationPool isActive temperature ps).map (fun p => (p.x, p.z))
      = ps.map (fun q => (q.1.x, q.1.z)) := by
  cases isActive
  · simp [updateEvaporationPool]
  · simp only [updateEvaporationPool, if_true, List.map_map]
    refine List.map_congr_left fun q _ => ?_
    simp only [Function.comp_apply, updateEvaporationParticle]
    split <;> rfl

end OldScript

namespace ClimateSim

/-- A 3-component vector of rationals for `part_001`. -/
structure Vec3 where
  x : ℚ
  y : ℚ
  z : ℚ
deriving DecidableEq, Repr

/-- The deterministic trigonometric part of the terrain formula,
`sin(x·0.1)·cos(z·0.1)·8 + sin(x·0.05)·cos(z·0.05)·15` (lines 109-110 and
703-704 of `part_001`), parametric in the interpretation `s`/`c` of
`Math.sin`/`Math.cos`. -/
def terrainBase (s c : ℚ → ℚ) (x z : ℚ) : ℚ :=
  s (x * 0.1) * c (z * 0.1) * 8 + s (x * 0.05) * c (z * 0.05) * 15

/-- The valley adjustment near the center (lines 114-116 and 706-708):
scale the height by 0.3 when both |x| < 20 and |z| < 20. -/
def valleyAdjust (x z h : ℚ) : ℚ :=
  if |x| < 20 ∧ |z| < 20 then h * 0.3 else h

/-- The height assigned to a terrain mesh vertex in `createTerrain`
(lines 102-118): the deterministic base *plus the random jitter*
`Math.random() * 2` (line 111, sample `r ∈ [0, 1)`), then the valley
adjustment and the floor clamp at -2. -/
def meshVertexHeight (s c : ℚ → ℚ) (x z r : ℚ) : ℚ :=
  max (valleyAdjust x z (terrainBase s c x z + r * 2)) (-2)

/-- `getTerrainHeight(x, z)` (lines 700-711), the per-frame collision
query: the same formula without the random jitter term. -/
def getTerrainHeight (s c : ℚ → ℚ) (x z : ℚ) : ℚ :=
  max (valleyAdjust x z (terrainBase s c x z)) (-2)

/-- C6 counterexample: at (x, z) = (0, 0) with the trigonometric values
taken at 0 (sin 0 = 0, cos 0 = 1) and random sample 1/2, the mesh vertex
height is 0.3 while the collision query returns 0: mesh generation adds a
`Math.random() * 2` jitter that `getTerrainHeight` lacks, so the two
disagree whenever the jitter sample is nonzero. -/
theorem meshHeight_ne_collision_cex :
    meshVertexHeight (fun _ => 0) (fun _ => 1) 0 0 (1/2)
      ≠ getTerrainHeight (fun _ => 0) (fun _ => 1) 0 0 := by
  norm_num [meshVertexHeight, getTerrainHeight, valleyAdjust, terrainBase]

/-- C6 (amended): `getTerrainHeight` is deterministic (it is a pure
function of (x, z)) and shares its entire deterministic formula with the
mesh generation loop; the height of a mesh vertex equals the collision
query exactly when the random jitter contribution is zero, for every
interpretation of sin and cos and every coordinate. -/
theorem meshHeight_eq_collision_of_zero_jitter (s c : ℚ → ℚ) (x z : ℚ) :
    meshVertexHeight s c x z 0 = getTerrainHeight s c x z := by
  simp [meshVertexHeight, getTerrainHeight]

/-- A transpiration particle of `part_001`: position plus the lifetime
counter stored in the pool's `lifetimes` array. -/
structure TParticle where
  x : ℚ
  y : ℚ
  z : ℚ
  lifetime : ℚ
deriving DecidableEq, Repr

/-- One transpiration-particle step of `updateParticles` (lines 743-769):
drift by the stored velocity, advance the lifetime by `animationSpeed`,
and when the lifetime exceeds `maxLifetime` or the altitude exceeds 20,
reset to a randomly chosen tree with jitter — but only if that tree
exists (`if (this.trees[treeIndex])`): with an empty tree list the reset
is skipped entirely and position and lifetime keep drifting. -/
def updateTranspirationParticle (trees : List Vec3)
    (animationSpeed maxLifetime : ℚ) (v : Vec3) (treeIdx : ℕ)
    (jx jz : ℚ) (p : TParticle) : TParticle :=
  let px := p.x + v.x
  let py := p.y + v.y
  let pz := p.z + v.z
  let life := p.lifetime + animationSpeed
  if life > maxLifetime ∨ py > 20 then
    match trees.get? treeIdx with
    | some t => ⟨t.x + jx, t.y + 4, t.z + jz, 0⟩
    | none => ⟨px, py, pz, life⟩
  else ⟨px, py, pz, life⟩

/-- The transpiration pool update: each entry carries its particle, its
stored velocity and the per-frame random draws (tree index and jitters);
the loop mutates the fixed-size arrays in place, never adding or removing
a slot. -/
def updateTranspirationPool (trees : List Vec3)
    (animationSpeed maxLifetime : ℚ)
    (ps : List (TParticle × Vec3 × ℕ × ℚ × ℚ)) : List TParticle :=
  ps.map fun q =>
    updateTranspirationParticle trees animationSpeed maxLifetime
      q.2.1 q.2.2.1 q.2.2.2.1 q.2.2.2.2 q.1

/-- With an empty tree list the transpiration step never resets: it is a
pure drift of position and lifetime. -/
lemma updateTranspirationParticle_empty (animationSpeed maxLifetime : ℚ)
    (v : Vec3) (treeIdx : ℕ) (jx jz : ℚ) (p : TParticle) :
    updateTranspirationParticle [] animationSpeed maxLifetime v treeIdx jx jz p
      = ⟨p.x + v.x, p.y + v.y, p.z + v.z, p.lifetime + animationSpeed⟩ := by
  simp only [updateTranspirationParticle, List.get?]
  split <;> rfl

/-- Iterating the transpiration step with fixed per-frame inputs. -/
def iterateTranspiration (trees : List Vec3)
    (animationSpeed maxLifetime : ℚ) (v : Vec3) (treeIdx : ℕ)
    (jx jz : ℚ) : ℕ → TParticle → TParticle
  | 0, p => p
  | n + 1, p =>
    iterateTranspiration trees animationSpeed maxLifetime v treeIdx jx jz n
      (updateTranspirationParticle trees animationSpeed maxLifetime v treeIdx jx jz p)

/-- With an empty tree list the altitude after n steps is the initial
altitude plus n times the vertical velocity. -/
lemma iterateTranspiration_empty_y (animationSpeed maxLifetime : ℚ)
    (v : Vec3) (treeIdx : ℕ) (jx jz : ℚ) :
    ∀ (n : ℕ) (p : TParticle),
      (iterateTranspiration [] animationSpeed maxLifetime v treeIdx jx jz n p).y
        = p.y + n * v.y
  | 0, p => by simp [iterateTranspiration]
  | n + 1, p => by
    rw [iterateTranspiration,
      updateTranspirationParticle_empty,
      iterateTranspiration_empty_y animationSpeed maxLifetime v treeIdx jx jz n]
    push_cast
    ring

/-- C7 counterexample: with an empty tree list, a transpiration particle
that starts at altitude 21 — already above the reset ceiling 20 — with
vertical velocity 1/25 is never recycled (the reset is guarded by
`if (this.trees[treeIndex])`), and after one million updates its altitude
is 40021: the position grows without bound and the out-of-domain particle
is never placed back into the spawn domain. -/
theorem transpiration_unbounded_cex :
    (iterateTranspiration [] 1 80 ⟨0, 1/25, 0⟩ 0 0 0 1000000
        ⟨0, 21, 0, 0⟩).y = 40021 ∧ (40021 : ℚ) > 20 := by
  constructor
  · rw [iterateTranspiration_empty_y]
    norm_num
  · norm_num

/-- C7 (amended): the particle count of the transpiration pool is
invariant under the update, and a recycle that actually fires (the
lifetime/altitude trigger holds and the chosen tree exists) places the
particle at that tree's emitter with the spawn jitter and lifetime 0; but
there is no reset rule tied to the horizontal coordinates, and with an
empty tree list no reset happens at all, so particle positions are not
bounded in general. -/
theorem transpiration_count_recycle :
    (∀ (trees : List Vec3) (sp ml : ℚ)
        (ps : List (TParticle × Vec3 × ℕ × ℚ × ℚ)),
      (updateTranspirationPool trees sp ml ps).length = ps.length) ∧
    (∀ (trees : List Vec3) (sp ml : ℚ) (v : Vec3) (idx : ℕ) (jx jz : ℚ)
        (p : TParticle) (t : Vec3),
      trees.get? idx = some t →
      (p.lifetime + sp > ml ∨ p.y + v.y > 20) →
      updateTranspirationParticle trees sp ml v idx jx jz p
        = ⟨t.x + jx, t.y + 4, t.z + jz, 0⟩) := by
  constructor
  · intro trees sp ml ps
    simp [updateTranspirationPool]
  · intro trees sp ml v idx jx jz p t hget htrig
    simp only [updateTranspirationParticle, if_pos htrig, hget]

/-- Witness for `transpiration_count_recycle`: a concrete recycle on a
one-tree list at (1, 2, 3). -/
theorem transpiration_count_recycle_witness :
    ([(⟨1, 2, 3⟩ : Vec3)].get? 0 = some ⟨1, 2, 3⟩) ∧
    ((⟨0, 30, 0, 0⟩ : TParticle).lifetime + 1 > 80 ∨
      (⟨0, 30, 0, 0⟩ : TParticle).y + (⟨0, 1, 0⟩ : Vec3).y > 20) ∧
    updateTranspirationParticle [⟨1, 2, 3⟩] 1 80 ⟨0, 1, 0⟩ 0 5 6 ⟨0, 30, 0, 0⟩
      = ⟨1 + 5, 2 + 4, 3 + 6, 0⟩ := by
  have hget : ([(⟨1, 2, 3⟩ : Vec3)].get? 0 = some ⟨1, 2, 3⟩) := rfl
  have htrig : ((⟨0, 30, 0, 0⟩ : TParticle).lifetime + 1 > 80 ∨
      (⟨0, 30, 0, 0⟩ : TParticle).y + (⟨0, 1, 0⟩ : Vec3).y > 20) := by
    right
    norm_num
  exact ⟨hget, htrig,
    transpiration_count_recycle.2 [⟨1, 2, 3⟩] 1 80 ⟨0, 1, 0⟩ 0 5 6
      ⟨0, 30, 0, 0⟩ ⟨1, 2, 3⟩ hget htrig⟩

/-- The climate parameter record of `part_001` (lines 21-28). -/
structure ClimateParams where
  temperature : ℚ
  temperatureChange : ℚ
  precipitationIntensity : ℚ
  evaporationRate : ℚ
  iceMelting : ℚ
  seaLevel : ℚ
deriving DecidableEq, Repr

/-- The initial climate parameters (constructor, lines 21-28). -/
def initClimateParams : ClimateParams := ⟨15, 0, 1, 1, 0, 0⟩

/-- The temperature slider handler (lines 497-503): store the change and
recompute `temperature = 15 + temperatureChange`. -/
def temperatureSliderInput (v : ℚ) (cp : ClimateParams) : ClimateParams :=
  { cp with temperatureChange := v, temperature := 15 + v }

/-- `resetSimulation()` of `part_001` (lines 648-657): replace the whole
record with the defaults. -/
def resetClimateParams (_cp : ClimateParams) : ClimateParams :=
  ⟨15, 0, 1, 1, 0, 0⟩

/-- `loadClimateScenario()` (lines 676-682): the dramatic scenario. -/
def loadClimateScenario (cp : ClimateParams) : ClimateParams :=
  { cp with temperatureChange := 3.5, temperature := 18.5,
            precipitationIntensity := 1.5, evaporationRate := 1.7,
            iceMelting := 1.5 }

/-- The claimed invariant: temperature = 15 + temperatureChange. -/
def tempInvariant (cp : ClimateParams) : Prop :=
  cp.temperature = 15 + cp.temperatureChange

/-- C10: `temperature = 15 + temperatureChange` holds after
initialization and is (re-)established by every climate-mutating
operation: the temperature slider handler, `resetSimulation` and
`loadClimateScenario`. -/
theorem temperature_invariant_preserved :
    tempInvariant initClimateParams ∧
    (∀ (v : ℚ) (cp : ClimateParams), tempInvariant (temperatureSliderInput v cp)) ∧
    (∀ cp : ClimateParams, tempInvariant (resetClimateParams cp)) ∧
    (∀ cp : ClimateParams, tempInvariant (loadClimateScenario cp)) := by
  refine ⟨by norm_num [tempInvariant, initClimateParams], fun v cp => rfl,
    fun cp => by norm_num [tempInvariant, resetClimateParams],
    fun cp => by norm_num [tempInvariant, loadClimateScenario]⟩

end ClimateSim
